import Mathlib

/-!
Verification development for the `v2_credit_spread_algo` package (and the
`UpgradedYellowAlligator` script) of the QuantConnect-Trading-Algorithms
repository.  The Python modules are shallowly embedded: option chains become
lists of contract records, prices and strikes are rationals, portfolio
holdings become lists of entries, and the mutable `OrderExecutor` state
becomes an explicit record threaded through the functions.  Calls into the
vendor SDK (order placement, strategy construction) are represented by an
environment record describing the outcomes the SDK can produce, and placed
orders are collected in an output list.  Python exceptions that escape a
function are modelled with `Except`.
-/

deriving instance DecidableEq for Except

/-- Calendar dates are abstract: only equality of dates is ever used by the
code (`expiry.date() == today`, `last_reset_date == current_date`). -/
abbrev TradeDate := Int

/-- Option right, from the platform's `OptionRight` enumeration as used by the
source (`OptionRight.PUT` / `OptionRight.CALL`). -/
inductive OptionRight where
  | put
  | call
deriving DecidableEq

/-- Greeks record: only `delta` is read by the source, and it can be missing
(`contract.greeks.delta is None`). -/
structure Greeks where
  delta : Option ℚ
deriving DecidableEq

/-- An option symbol: an identifier plus the (possibly missing) canonical
option symbol (`symbol.canonical`). -/
structure OptionSymbol where
  id : Nat
  canonical : Option Nat
deriving DecidableEq

/-- One contract of an option chain, carrying exactly the attributes the
source reads: right, strike, expiry date, bid/ask/last prices, and the
possibly-missing greeks object. -/
structure OptionContract where
  symbol : OptionSymbol
  right : OptionRight
  strike : ℚ
  expiryDate : TradeDate
  bidPrice : ℚ
  askPrice : ℚ
  lastPrice : ℚ
  greeks : Option Greeks
deriving DecidableEq

/-- Security type of a portfolio holding (`symbol.SecurityType`). -/
inductive SecurityType where
  | option
  | equity
deriving DecidableEq

/-- One `(symbol, holding)` pair of `algorithm.portfolio.items()`, merged into
a single record: symbol attributes (type, strike, right, expiry, canonical)
plus holding attributes (quantity, invested). -/
structure PortfolioEntry where
  symbolId : Nat
  secType : SecurityType
  strike : ℚ
  right : OptionRight
  expiryDate : TradeDate
  canonical : Option Nat
  quantity : Int
  invested : Bool
deriving DecidableEq

/-- The `current_spread_details` dictionary of `OrderExecutor`: every value
starts as `None`.  The transient log-only keys (`close_time`, `close_reason`,
`entry_time`, `symbol`, `width`) are omitted; no branch that we model reads
them. -/
structure SpreadDetails where
  short_strike : Option ℚ
  long_strike : Option ℚ
  initial_credit : Option ℚ
  max_profit : Option ℚ
  max_loss : Option ℚ
  breakeven : Option ℚ
  expiry : Option TradeDate
deriving DecidableEq

/-- `_reset_spread_details`: every stored value becomes `None`. -/
def SpreadDetails.reset : SpreadDetails :=
  { short_strike := none, long_strike := none, initial_credit := none,
    max_profit := none, max_loss := none, breakeven := none, expiry := none }

/-- The mutable state of an `OrderExecutor` instance: the three state flags,
the last reset date, the most recent order tickets (by id), and the spread
details.  The log-throttling field `last_monitoring_log_time` and the
fill-bookkeeping dictionary `active_spread_orders` only affect logging and
fill accounting, which the modelled branches do not read, and are omitted. -/
structure ExecState where
  spread_is_open : Bool
  pending_open : Bool
  pending_close : Bool
  last_reset_date : Option TradeDate
  order_tickets : List Nat
  details : SpreadDetails
deriving DecidableEq

/-- `OrderExecutor.reset_state`: once per day, reconcile the state flags with
the actual portfolio holdings and record the reset date. -/
def reset_state (current_date : TradeDate) (portfolio : List PortfolioEntry)
    (st : ExecState) : ExecState :=
  if st.last_reset_date = some current_date then st
  else
    let has_positions := portfolio.any fun e =>
      decide (e.secType = SecurityType.option) &&
        (e.invested || decide (e.quantity ≠ 0))
    let st' :=
      if ¬has_positions then
        if st.spread_is_open ∨ st.pending_open ∨ st.pending_close then
          { st with spread_is_open := false, pending_open := false,
                    pending_close := false, details := SpreadDetails.reset }
        else st
      else
        if ¬st.spread_is_open ∧ ¬st.pending_open ∧ ¬st.pending_close then
          { st with spread_is_open := true }
        else st
    { st' with last_reset_date := some current_date }

/-- An order sent to the platform while closing a position: either a combo
spread close (`algorithm.sell(OptionStrategies.bull_put_spread ...)`) or an
individual per-leg liquidation order (`algorithm.sell`/`algorithm.buy` on one
option symbol). -/
inductive PlacedOrder where
  | spreadClose (shortStrike longStrike : ℚ) (expiry : TradeDate)
  | legSell (symbolId : Nat) (qty : Nat)
  | legBuy (symbolId : Nat) (qty : Nat)
deriving DecidableEq

/-- Environment describing the outcomes of the vendor SDK calls made while
closing a spread: whether the strategy-construction/`sell` call of each
combo-close attempt raises an exception, and which order tickets the two
combo `sell` calls return (an empty list models `sell` returning no
tickets). -/
structure CloseEnv where
  sell1Raises : Bool
  sell1Tickets : List Nat
  sell2Raises : Bool
  sell2Tickets : List Nat
deriving DecidableEq

/-- The option positions of the portfolio: entries whose security type is
OPTION and whose quantity is nonzero (`abs(holding.quantity) > 0`). -/
def optionPositionsOf (portfolio : List PortfolioEntry) : List PortfolioEntry :=
  portfolio.filter fun e =>
    decide (e.secType = SecurityType.option) && decide (e.quantity ≠ 0)

/-- `V2CreditSpreadAlgoAlgorithm._has_option_positions` (also the position scan
of `daily_state_verification`): does any OPTION holding have nonzero
quantity? -/
def hasOptionPositions (portfolio : List PortfolioEntry) : Bool :=
  portfolio.any fun e =>
    decide (e.secType = SecurityType.option) && decide (e.quantity ≠ 0)

/-- `OrderExecutor._try_close_with_current_details`: build a bull-put-spread
strategy object from the stored spread details and sell it.  Returns the
updated state and the placed combo order on success, `none` on any of the
failure paths (missing details, missing or empty option chain, missing
canonical symbol, an exception from the strategy/`sell` call, or `sell`
returning no tickets). -/
def try_close_with_current_details (env : CloseEnv)
    (chain : Option (List OptionContract)) (st : ExecState) :
    Option (ExecState × List PlacedOrder) :=
  match st.details.short_strike, st.details.long_strike, st.details.expiry with
  | some ss, some ls, some ex =>
    match chain with
    | none => none
    | some cs =>
      match cs.head? with
      | none => none
      | some c0 =>
        match c0.symbol.canonical with
        | none => none
        | some _ =>
          if env.sell1Raises then none
          else if env.sell1Tickets.isEmpty then none
          else some ({ st with pending_close := true,
                               order_tickets := env.sell1Tickets },
                     [PlacedOrder.spreadClose ss ls ex])
  | _, _, _ => none

/-- `OrderExecutor._try_close_with_holdings`: identify the spread from the
actual holdings and sell it as a strategy object.  The Python loop assigns
`short_position` on every negative-quantity entry and `long_position` on
every other entry (the last assignment wins), and takes the first available
canonical symbol. -/
def try_close_with_holdings (env : CloseEnv) (portfolio : List PortfolioEntry)
    (st : ExecState) : Option (ExecState × List PlacedOrder) :=
  let ops := optionPositionsOf portfolio
  if ops.length ≠ 2 then none
  else
    let shortPos := (ops.filter fun e => decide (e.quantity < 0)).getLast?
    let longPos := (ops.filter fun e => decide (0 ≤ e.quantity)).getLast?
    let canonical := ops.findSome? PortfolioEntry.canonical
    match shortPos, longPos with
    | some sp, some lp =>
      if sp.right ≠ OptionRight.put ∨ lp.right ≠ OptionRight.put then none
      else if sp.expiryDate ≠ lp.expiryDate then none
      else if sp.strike ≤ lp.strike then none
      else
        match canonical with
        | none => none
        | some _ =>
          if env.sell2Raises then none
          else if env.sell2Tickets.isEmpty then none
          else some ({ st with pending_close := true,
                               order_tickets := env.sell2Tickets },
                     [PlacedOrder.spreadClose sp.strike lp.strike sp.expiryDate])
    | _, _ => none

/-- `OrderExecutor.force_close_positions`: place one individual liquidation
order per option position (sell long legs, buy back short legs).  When no
option positions exist, reset the state flags and report failure. -/
def force_close_positions (portfolio : List PortfolioEntry) (st : ExecState) :
    Bool × ExecState × List PlacedOrder :=
  let ops := optionPositionsOf portfolio
  let orders := ops.map fun e =>
    if 0 < e.quantity then PlacedOrder.legSell e.symbolId e.quantity.natAbs
    else PlacedOrder.legBuy e.symbolId e.quantity.natAbs
  if ops.isEmpty then
    (false,
     { st with spread_is_open := false, pending_open := false,
               pending_close := false, details := SpreadDetails.reset },
     [])
  else
    (true, { st with pending_close := true }, orders)

/-- `OrderExecutor.close_spread_position`: try the two combo-close strategies
in order and fall back to per-leg liquidation when both fail (an exception
escaping a strategy attempt also lands in the `force_close_positions`
fallback). -/
def close_spread_position (env : CloseEnv)
    (chain : Option (List OptionContract)) (portfolio : List PortfolioEntry)
    (st : ExecState) : Bool × ExecState × List PlacedOrder :=
  if ¬st.spread_is_open ∨ st.pending_close then (false, st, [])
  else
    match try_close_with_current_details env chain st with
    | some (st', orders) => (true, st', orders)
    | none =>
      match try_close_with_holdings env portfolio st with
      | some (st', orders) => (true, st', orders)
      | none => force_close_positions portfolio st

/-- The put contracts of the chain expiring today, as filtered at the top of
`calculate_current_spread_value` and `select_bull_put_spread`. -/
def putContractsOf (chain : List OptionContract) (today : TradeDate) :
    List OptionContract :=
  chain.filter fun c =>
    decide (c.right = OptionRight.put) && decide (c.expiryDate = today)

/-- The first contract of today's put contracts whose strike is within 0.001
of the given strike (`next((c for c in put_contracts if abs(c.strike - s) < 0.001), None)`). -/
def findLegContract (chain : List OptionContract) (today : TradeDate)
    (strikePrice : ℚ) : Option OptionContract :=
  (putContractsOf chain today).find? fun c =>
    decide (|c.strike - strikePrice| < 1 / 1000)

/-- `OrderExecutor.calculate_current_spread_value`: the current debit to close
the stored spread, computed as the short put's ask minus the long put's bid.
Returns `Except.ok none` on each early-return path (empty chain, missing
strikes, no put contract for today, leg contract not found).  When both legs
are found, the logging block evaluates `initial_credit > 0`; with
`initial_credit` still `None` that comparison raises a `TypeError`, modelled
as `Except.error ()`. -/
def calculate_current_spread_value (chain : List OptionContract)
    (today : TradeDate) (st : ExecState) : Except Unit (Option ℚ) :=
  if chain.isEmpty then Except.ok none
  else
    match st.details.short_strike, st.details.long_strike with
    | some ss, some ls =>
      if (putContractsOf chain today).isEmpty then Except.ok none
      else
        match findLegContract chain today ss, findLegContract chain today ls with
        | some short_put, some long_put =>
          match st.details.initial_credit with
          | none => Except.error ()
          | some _ => Except.ok (some (short_put.askPrice - long_put.bidPrice))
        | _, _ => Except.ok none
    | _, _ => Except.ok none

/-- The outcome of one risk check on a data tick: whether the check reached
its `close_spread_position` call, the Boolean the Python function returns,
and the resulting executor state and placed orders. -/
structure RiskCheckResult where
  closeInitiated : Bool
  returned : Bool
  state : ExecState
  orders : List PlacedOrder
deriving DecidableEq

/-- The no-action result of a risk check: every early `return False`. -/
def RiskCheckResult.none_ (st : ExecState) : RiskCheckResult :=
  { closeInitiated := false, returned := false, state := st, orders := [] }

/-- `RiskManager._check_stop_loss` with stop-loss multiple `slm` (initialised
to `2.0`): skip unless a spread is open with no close pending and both the
initial credit and the current debit to close are available; initiate a close
exactly when `current_debit ≥ initial_credit * slm`.  A `TypeError` escaping
`calculate_current_spread_value` propagates. -/
def risk_check_stop_loss (slm : ℚ) (env : CloseEnv)
    (chain : List OptionContract) (portfolio : List PortfolioEntry)
    (today : TradeDate) (st : ExecState) : Except Unit RiskCheckResult :=
  if ¬st.spread_is_open ∨ st.pending_close then
    Except.ok (RiskCheckResult.none_ st)
  else
    match st.details.initial_credit with
    | none => Except.ok (RiskCheckResult.none_ st)
    | some initial_credit =>
      match calculate_current_spread_value chain today st with
      | Except.error e => Except.error e
      | Except.ok none => Except.ok (RiskCheckResult.none_ st)
      | Except.ok (some current_debit) =>
        if initial_credit * slm ≤ current_debit then
          let r := close_spread_position env (some chain) portfolio st
          Except.ok { closeInitiated := true, returned := r.1,
                      state := r.2.1, orders := r.2.2 }
        else Except.ok (RiskCheckResult.none_ st)

/-- `RiskManager.monitor_positions`: return immediately when no spread is
open, otherwise run the stop-loss check (the only risk check implemented;
`last_check_time` only feeds logging and is omitted). -/
def monitor_positions (slm : ℚ) (env : CloseEnv)
    (chain : List OptionContract) (portfolio : List PortfolioEntry)
    (today : TradeDate) (st : ExecState) : Except Unit RiskCheckResult :=
  if ¬st.spread_is_open then Except.ok (RiskCheckResult.none_ st)
  else risk_check_stop_loss slm env chain portfolio today st

/-- `OrderExecutor.check_take_profit`: initiate a close when the current
profit `(initial_credit - current_debit) * 100` reaches half of the stored
maximum profit. -/
def check_take_profit (env : CloseEnv) (chain : List OptionContract)
    (portfolio : List PortfolioEntry) (today : TradeDate) (st : ExecState) :
    Except Unit RiskCheckResult :=
  if ¬st.spread_is_open ∨ st.pending_close then
    Except.ok (RiskCheckResult.none_ st)
  else
    match st.details.initial_credit, st.details.max_profit with
    | some initial_credit, some max_profit =>
      match calculate_current_spread_value chain today st with
      | Except.error e => Except.error e
      | Except.ok none => Except.ok (RiskCheckResult.none_ st)
      | Except.ok (some current_debit) =>
        let current_profit := (initial_credit - current_debit) * 100
        if max_profit * (1 / 2) ≤ current_profit then
          let r := close_spread_position env (some chain) portfolio st
          Except.ok { closeInitiated := true, returned := r.1,
                      state := r.2.1, orders := r.2.2 }
        else Except.ok (RiskCheckResult.none_ st)
    | _, _ => Except.ok (RiskCheckResult.none_ st)

/-- `OrderExecutor.daily_state_verification`: run `reset_state`, then force
`spread_is_open := true` whenever option positions actually exist, or clear
every flag when none do.  Returns whether positions exist. -/
def daily_state_verification (today : TradeDate)
    (portfolio : List PortfolioEntry) (st : ExecState) : ExecState × Bool :=
  let st1 := reset_state today portfolio st
  if hasOptionPositions portfolio then
    ({ st1 with spread_is_open := true }, true)
  else
    if st1.spread_is_open ∨ st1.pending_open ∨ st1.pending_close then
      ({ st1 with spread_is_open := false, pending_open := false,
                  pending_close := false, details := SpreadDetails.reset },
       false)
    else (st1, false)

/-- `V2CreditSpreadAlgoAlgorithm.close_positions` (the scheduled 15:30
callback): verify state, close via `close_spread_position` when positions
exist (falling back to `force_close_positions` when that fails), then run the
final verification, which re-checks the portfolio and forces liquidation if
positions remain.  Placing orders does not change the portfolio within the
callback (fills arrive as later order events), so both checks read the same
portfolio. -/
def close_positions (env : CloseEnv) (chain : Option (List OptionContract))
    (today : TradeDate) (portfolio : List PortfolioEntry) (st : ExecState) :
    ExecState × List PlacedOrder :=
  let has_positions := hasOptionPositions portfolio
  let st1 := (daily_state_verification today portfolio st).1
  let afterClose :=
    if has_positions then
      let stFlag := { st1 with spread_is_open := true }
      let r := close_spread_position env chain portfolio stFlag
      if r.1 then (r.2.1, r.2.2)
      else
        let f := force_close_positions portfolio r.2.1
        (f.2.1, r.2.2 ++ f.2.2)
    else (st1, ([] : List PlacedOrder))
  let still_has_positions := hasOptionPositions portfolio
  if still_has_positions then
    let f := force_close_positions portfolio afterClose.1
    (f.2.1, afterClose.2 ++ f.2.2)
  else afterClose

/-- The risk-monitoring portion of `V2CreditSpreadAlgoAlgorithm.on_data`
(after the chain-loading section): run `reset_state`, then monitor positions
through the risk manager when a chain is loaded and a spread is open. -/
def on_data_risk_check (slm : ℚ) (env : CloseEnv)
    (chain : Option (List OptionContract)) (portfolio : List PortfolioEntry)
    (today : TradeDate) (st : ExecState) : Except Unit RiskCheckResult :=
  let st1 := reset_state today portfolio st
  match chain with
  | some cs =>
    if st1.spread_is_open then monitor_positions slm env cs portfolio today st1
    else Except.ok (RiskCheckResult.none_ st1)
  | none => Except.ok (RiskCheckResult.none_ st1)

/-- Modelled from the spec: the platform's order status enumeration is part of
the vendor SDK (`AlgorithmImports`), which is not in the repository sources;
the spec's external-interface section enumerates the statuses "(submitted,
filled, partially filled, canceled, invalid, rejected)".  `NONE` is added
because `OrderExecutor.on_order_event` references `OrderStatus.NONE`
explicitly. -/
inductive OrderStatus where
  | submitted
  | filled
  | partiallyFilled
  | canceled
  | invalid
  | rejected
  | statusNone
deriving DecidableEq

/-- The branch of `OrderExecutor.on_order_event` that consumes an event with
a given status. -/
inductive OrderEventBranch where
  | filledHandler
  | canceledHandler
  | invalidHandler
  | submittedSilent
  | partialFillSilent
  | noneLogged
  | unhandledLogged
deriving DecidableEq

/-- The dispatch of `OrderExecutor.on_order_event`: the `if`/`elif` chain on
`order_event.status`.  Any status without its own arm falls into the final
`else`, which logs "Unhandled order status". -/
def on_order_event_dispatch : OrderStatus → OrderEventBranch
  | OrderStatus.filled => OrderEventBranch.filledHandler
  | OrderStatus.canceled => OrderEventBranch.canceledHandler
  | OrderStatus.invalid => OrderEventBranch.invalidHandler
  | OrderStatus.submitted => OrderEventBranch.submittedSilent
  | OrderStatus.partiallyFilled => OrderEventBranch.partialFillSilent
  | OrderStatus.statusNone => OrderEventBranch.noneLogged
  | OrderStatus.rejected => OrderEventBranch.unhandledLogged

/-- A filled order as returned by `transactions.get_orders` in
`UpgradedYellowAlligator.on_order_event`; only its fill price is read. -/
structure FillOrder where
  price : ℚ
deriving DecidableEq

namespace UpgradedYellowAlligator

/-- `self.stop_loss_multiplier = 2.0`. -/
def stop_loss_multiplier : ℚ := 2

/-- `self.profit_target_percentage = 0.50`. -/
def profit_target_percentage : ℚ := 1 / 2

/-- The credit-establishment block of `UpgradedYellowAlligator.on_order_event`
run once both legs of an opening spread are detected as filled: derive the
initial credit from the last fill order of each leg, falling back to the
default `0.20` when either leg's fill orders cannot be retrieved, then derive
the stop-loss target debit and the profit-target debit from that credit.
Returns `(initial_credit, stop_loss_target_debit, profit_target_value_debit)`. -/
def establish_credit_targets (short_put_fill_orders long_put_fill_orders :
    List FillOrder) : ℚ × ℚ × ℚ :=
  let initial_credit :=
    if ¬short_put_fill_orders.isEmpty ∧ ¬long_put_fill_orders.isEmpty then
      match short_put_fill_orders.getLast?, long_put_fill_orders.getLast? with
      | some s, some l => s.price - l.price
      | _, _ => 20 / 100
    else 20 / 100
  (initial_credit, initial_credit * stop_loss_multiplier,
   initial_credit * (1 - profit_target_percentage))

end UpgradedYellowAlligator

/-- Stable insertion of `x` into `l`: `x` is placed before the first element
`y` with `le x y`.  Equal-key elements keep their original relative order, as
with Python's `list.sort`. -/
def stableInsert (le : α → α → Bool) (x : α) : List α → List α
  | [] => [x]
  | y :: ys => if le x y then x :: y :: ys else y :: stableInsert le x ys

/-- A stable sort with the same extensional behaviour as Python's `list.sort`
with a key function: stable sorts agree on their output, so insertion sort is
a faithful model of timsort. -/
def pySort (le : α → α → Bool) : List α → List α
  | [] => []
  | x :: xs => stableInsert le x (pySort le xs)

/-- Configuration of `SpreadSelector.__init__`. -/
structure SelectorConfig where
  target_delta : ℚ
  max_delta : ℚ
  max_spread_width : ℚ
  min_spread_width : ℚ
  min_credit_pct : ℚ
  min_credit_fallback_pct : ℚ
  width_fallbacks : List ℚ
deriving DecidableEq

/-- The default `SpreadSelector` parameters (`target_delta=0.15`,
`max_delta=0.30`, widths `$1`-`$5`, credit thresholds 20% and 15%,
width fallbacks `[5.0, 4.0, 3.0, 2.0, 1.0]`). -/
def SelectorConfig.default : SelectorConfig :=
  { target_delta := 15 / 100, max_delta := 30 / 100, max_spread_width := 5,
    min_spread_width := 1, min_credit_pct := 20 / 100,
    min_credit_fallback_pct := 15 / 100, width_fallbacks := [5, 4, 3, 2, 1] }

/-- Does the contract carry a usable delta (`contract.greeks` present and
`contract.greeks.delta is not None`)? -/
def hasDelta (c : OptionContract) : Bool :=
  (c.greeks.bind Greeks.delta).isSome

/-- `abs(contract.greeks.delta)`, with `0` for a missing delta (only read on
contracts where `hasDelta` holds, or where the source itself substitutes 0). -/
def absDelta (c : OptionContract) : ℚ :=
  |(c.greeks.bind Greeks.delta).getD 0|

/-- One tested spread of `select_bull_put_spread`'s inner loop, keeping the
two leg contracts together with the derived width and net credit (the stored
scalar fields `short_strike`, `short_bid`, `long_strike`, `long_ask` are the
projections of the two contracts; the remaining dictionary keys only feed
logging). -/
structure SpreadInfo where
  shortC : OptionContract
  longC : OptionContract
  width : ℚ
  credit : ℚ
deriving DecidableEq

/-- The value returned by a successful `select_bull_put_spread`: the strategy
object (represented by its two legs) together with `max_profit`, `max_loss`
and `breakeven`. -/
structure SelectedSpread where
  shortC : OptionContract
  longC : OptionContract
  width : ℚ
  credit : ℚ
  max_profit : ℚ
  max_loss : ℚ
  breakeven : ℚ
deriving DecidableEq

/-- The minimum strike among today's put contracts
(`min([c.strike for c in put_contracts])`). -/
def minStrikeOf : List OptionContract → Option ℚ
  | [] => none
  | c :: cs =>
    match minStrikeOf cs with
    | none => some c.strike
    | some m => some (min c.strike m)

/-- One iteration of the `for target_width in self.width_fallbacks` loop for
a fixed short put: either skip (each `continue`), or append the tested spread
to the preferred or the fallback list. -/
def tryWidth (cfg : SelectorConfig) (put_contracts : List OptionContract)
    (short_put : OptionContract)
    (acc : List SpreadInfo × List SpreadInfo) (target_width : ℚ) :
    List SpreadInfo × List SpreadInfo :=
  if cfg.max_spread_width < target_width then acc
  else
    match minStrikeOf put_contracts with
    | none => acc
    | some min_strike =>
      if short_put.strike - min_strike < target_width then acc
      else
        let long_candidates := put_contracts.filter fun c =>
          decide (c.strike < short_put.strike) &&
            decide (short_put.strike - c.strike ≤ target_width)
        match (pySort (fun a b =>
            decide (short_put.strike - b.strike ≤ short_put.strike - a.strike))
            long_candidates).head? with
        | none => acc
        | some long_put =>
          let spread_width := short_put.strike - long_put.strike
          if spread_width < cfg.min_spread_width then acc
          else
            let net_credit := short_put.bidPrice - long_put.askPrice
            if net_credit ≤ 0 then acc
            else
              let info : SpreadInfo :=
                { shortC := short_put, longC := long_put,
                  width := spread_width, credit := net_credit }
              if spread_width * cfg.min_credit_pct ≤ net_credit then
                (acc.1 ++ [info], acc.2)
              else if spread_width * cfg.min_credit_fallback_pct ≤ net_credit then
                (acc.1, acc.2 ++ [info])
              else acc

/-- The body of the `for short_put in starting_candidates` loop: skip short
puts with no bid, test every width, then pick the highest-credit preferred
spread, falling back to the highest-credit fallback spread. -/
def tryShortPut (cfg : SelectorConfig) (put_contracts : List OptionContract)
    (short_put : OptionContract) : Option SelectedSpread :=
  if short_put.bidPrice ≤ 0 then none
  else
    let lists := cfg.width_fallbacks.foldl
      (tryWidth cfg put_contracts short_put) ([], [])
    let byCreditDesc : SpreadInfo → SpreadInfo → Bool := fun a b =>
      decide (b.credit ≤ a.credit)
    let selected :=
      if ¬lists.1.isEmpty then (pySort byCreditDesc lists.1).head?
      else (pySort byCreditDesc lists.2).head?
    selected.map fun si =>
      { shortC := si.shortC, longC := si.longC, width := si.width,
        credit := si.credit, max_profit := si.credit * 100,
        max_loss := (si.width - si.credit) * 100,
        breakeven := si.shortC.strike - si.credit }

/-- The outer candidate loop of `select_bull_put_spread`: return the first
short put that yields a valid spread. -/
def tryShortCandidates (cfg : SelectorConfig)
    (put_contracts : List OptionContract) :
    List OptionContract → Option SelectedSpread
  | [] => none
  | short_put :: rest =>
    match tryShortPut cfg put_contracts short_put with
    | some r => some r
    | none => tryShortCandidates cfg put_contracts rest

/-- Ascending sort by absolute delta
(`sort(key=lambda x: abs(x.greeks.delta))`). -/
def byDeltaAsc (a b : OptionContract) : Bool :=
  decide (absDelta a ≤ absDelta b)

/-- The short-put candidates: today's puts whose greeks carry a delta with
`abs(delta) <= max_delta`. -/
def validShortCandidates (cfg : SelectorConfig) (chain : List OptionContract)
    (today : TradeDate) : List OptionContract :=
  (putContractsOf chain today).filter fun c =>
    hasDelta c && decide (absDelta c ≤ cfg.max_delta)

/-- The ordering of short-put candidates tried by `select_bull_put_spread`:
when no candidate has delta at or below `target_delta`, all candidates in
ascending-delta order; otherwise the candidates whose delta is at least that
of the candidate closest to `target_delta`, in ascending-delta order. -/
def startingCandidates (cfg : SelectorConfig) (chain : List OptionContract)
    (today : TradeDate) : List OptionContract :=
  let sorted_valid := pySort byDeltaAsc (validShortCandidates cfg chain today)
  let target_candidates := sorted_valid.filter fun c =>
    decide (absDelta c ≤ cfg.target_delta)
  match (pySort (fun a b =>
      decide (|cfg.target_delta - absDelta a| ≤
        |cfg.target_delta - absDelta b|)) target_candidates).head? with
  | none => sorted_valid
  | some closest =>
    pySort byDeltaAsc (sorted_valid.filter fun c =>
      decide (absDelta closest ≤ absDelta c))

/-- `SpreadSelector.select_bull_put_spread`: filter today's puts, collect the
short-put candidates with delta at most `max_delta`, order them starting from
the delta closest to `target_delta` and moving up, and return the first
candidate that produces a valid spread.  (The `underlying_price` argument of
the source is never read.) -/
def select_bull_put_spread (cfg : SelectorConfig)
    (chain : List OptionContract) (today : TradeDate) :
    Option SelectedSpread :=
  if chain.isEmpty then none
  else
    if (putContractsOf chain today).isEmpty then none
    else
      if (validShortCandidates cfg chain today).isEmpty then none
      else
        tryShortCandidates cfg (putContractsOf chain today)
          (startingCandidates cfg chain today)

/-- The leg and threshold facts that hold for every spread stored by the
width loop of `select_bull_put_spread` while testing `short_put`. -/
def GoodInfo (cfg : SelectorConfig) (put_contracts : List OptionContract)
    (short_put : OptionContract) (si : SpreadInfo) : Prop :=
  si.shortC = short_put ∧ si.longC ∈ put_contracts ∧
  si.longC.strike < short_put.strike ∧
  si.width = short_put.strike - si.longC.strike ∧
  cfg.min_spread_width ≤ si.width ∧ si.width ≤ cfg.max_spread_width ∧
  si.credit = short_put.bidPrice - si.longC.askPrice ∧ 0 < si.credit

/-- Invariant on the accumulated preferred/fallback lists of the width
loop. -/
def GoodLists (cfg : SelectorConfig) (put_contracts : List OptionContract)
    (short_put : OptionContract)
    (acc : List SpreadInfo × List SpreadInfo) : Prop :=
  (∀ si ∈ acc.1, GoodInfo cfg put_contracts short_put si ∧
    si.width * cfg.min_credit_pct ≤ si.credit) ∧
  (∀ si ∈ acc.2, GoodInfo cfg put_contracts short_put si ∧
    si.width * cfg.min_credit_fallback_pct ≤ si.credit)

/-- Build the returned `SelectedSpread` from a stored `SpreadInfo`, as the
success branch of `select_bull_put_spread` does. -/
def buildSelected (si : SpreadInfo) : SelectedSpread :=
  { shortC := si.shortC, longC := si.longC, width := si.width,
    credit := si.credit, max_profit := si.credit * 100,
    max_loss := (si.width - si.credit) * 100,
    breakeven := si.shortC.strike - si.credit }

/-! Concrete fixtures used by the witness and counterexample theorems: a
two-contract SPY-style chain expiring on day 0, the matching two-leg
portfolio, executor states, and SDK environments. -/

/-- Example short-leg option symbol. -/
def exSymShort : OptionSymbol := { id := 1, canonical := some 100 }

/-- Example long-leg option symbol. -/
def exSymLong : OptionSymbol := { id := 2, canonical := some 100 }

/-- Example short put: strike 100, bid 1.00 / ask 1.20, delta `-0.15`. -/
def exShortPut : OptionContract :=
  { symbol := exSymShort, right := OptionRight.put, strike := 100,
    expiryDate := 0, bidPrice := 1, askPrice := 12 / 10,
    lastPrice := 11 / 10, greeks := some { delta := some (-(15 / 100)) } }

/-- Example long put: strike 95, bid 0.10 / ask 0.25, delta `-0.05`. -/
def exLongPut : OptionContract :=
  { symbol := exSymLong, right := OptionRight.put, strike := 95,
    expiryDate := 0, bidPrice := 1 / 10, askPrice := 25 / 100,
    lastPrice := 2 / 10, greeks := some { delta := some (-(5 / 100)) } }

/-- Example option chain holding the two legs. -/
def exChain : List OptionContract := [exShortPut, exLongPut]

/-- Example portfolio holding the open spread: short one put at 100, long
one put at 95. -/
def exPortfolio : List PortfolioEntry :=
  [{ symbolId := 1, secType := SecurityType.option, strike := 100,
     right := OptionRight.put, expiryDate := 0, canonical := some 100,
     quantity := -1, invested := true },
   { symbolId := 2, secType := SecurityType.option, strike := 95,
     right := OptionRight.put, expiryDate := 0, canonical := some 100,
     quantity := 1, invested := true }]

/-- Example spread details of an open 100/95 bull put with initial credit
0.50. -/
def exDetailsOpen : SpreadDetails :=
  { short_strike := some 100, long_strike := some 95,
    initial_credit := some (1 / 2), max_profit := some 50,
    max_loss := some 450, breakeven := some (995 / 10), expiry := some 0 }

/-- Example executor state with the 100/95 spread open and today's reset
already performed. -/
def exStateOpen : ExecState :=
  { spread_is_open := true, pending_open := false, pending_close := false,
    last_reset_date := some 0, order_tickets := [],
    details := exDetailsOpen }

/-- Example spread details with strikes recorded but no initial credit. -/
def exDetailsNoCredit : SpreadDetails :=
  { short_strike := some 100, long_strike := some 95, initial_credit := none,
    max_profit := none, max_loss := none, breakeven := none,
    expiry := some 0 }

/-- Example executor state whose details lack the initial credit. -/
def exStateNoCredit : ExecState :=
  { spread_is_open := true, pending_open := false, pending_close := false,
    last_reset_date := some 0, order_tickets := [],
    details := exDetailsNoCredit }

/-- Example environment in which every SDK call succeeds. -/
def exEnv : CloseEnv :=
  { sell1Raises := false, sell1Tickets := [11, 12], sell2Raises := false,
    sell2Tickets := [13, 14] }

/-- Example environment in which both combo-close attempts raise. -/
def exEnvFail : CloseEnv :=
  { sell1Raises := true, sell1Tickets := [], sell2Raises := true,
    sell2Tickets := [] }

/-- Example short put for the take-profit scenario: strike 100, ask 0.30. -/
def exShortPutTP : OptionContract :=
  { symbol := exSymShort, right := OptionRight.put, strike := 100,
    expiryDate := 0, bidPrice := 2 / 10, askPrice := 3 / 10,
    lastPrice := 25 / 100, greeks := some { delta := some (-(10 / 100)) } }

/-- Example long put for the take-profit scenario: strike 95, bid 0.05. -/
def exLongPutTP : OptionContract :=
  { symbol := exSymLong, right := OptionRight.put, strike := 95,
    expiryDate := 0, bidPrice := 5 / 100, askPrice := 1 / 10,
    lastPrice := 8 / 100, greeks := some { delta := some (-(4 / 100)) } }

/-- Example chain for the take-profit scenario: the debit to close the
100/95 spread is `0.30 - 0.05 = 0.25`. -/
def exChainTP : List OptionContract := [exShortPutTP, exLongPutTP]

/-- Example details of an open 100/95 spread entered for a credit of 1.00,
so the maximum profit is 100. -/
def exDetailsTP : SpreadDetails :=
  { short_strike := some 100, long_strike := some 95,
    initial_credit := some 1, max_profit := some 100, max_loss := some 400,
    breakeven := some 99, expiry := some 0 }

/-- Example executor state for the take-profit scenario. -/
def exStateTP : ExecState :=
  { spread_is_open := true, pending_open := false, pending_close := false,
    last_reset_date := some 0, order_tickets := [],
    details := exDetailsTP }

/-- The spread `select_bull_put_spread` picks from `exChain` with the
default configuration: the 100/95 bull put at width 5 for a credit of
`1.00 - 0.25 = 0.75` (a fallback spread: 15% of the width). -/
def exSelected : SelectedSpread :=
  { shortC := exShortPut, longC := exLongPut, width := 5, credit := 3 / 4,
    max_profit := 75, max_loss := 425, breakeven := 397 / 4 }

section Lemmas

theorem mem_stableInsert {α : Type _} (le : α → α → Bool) (x a : α) :
    ∀ l : List α, a ∈ stableInsert le x l ↔ a = x ∨ a ∈ l := by
  intro l
  induction l with
  | nil => simp [stableInsert]
  | cons y ys ih =>
    by_cases h : le x y = true
    · simp [stableInsert, h]
    · simp only [stableInsert, h, if_neg, Bool.not_eq_true, List.mem_cons, ih]
      tauto

theorem mem_pySort {α : Type _} (le : α → α → Bool) (a : α) :
    ∀ l : List α, a ∈ pySort le l ↔ a ∈ l := by
  intro l
  induction l with
  | nil => simp [pySort]
  | cons y ys ih => simp [pySort, mem_stableInsert, ih]

theorem mem_of_head? {α : Type _} {l : List α} {a : α}
    (h : l.head? = some a) : a ∈ l := by
  cases l with
  | nil => simp at h
  | cons x xs =>
    simp only [List.head?] at h
    cases h
    exact List.mem_cons_self _ _

theorem foldlPreserve {α β : Type _} (f : β → α → β) (P : β → Prop)
    (hstep : ∀ b a, P b → P (f b a)) :
    ∀ (l : List α) (b : β), P b → P (l.foldl f b) := by
  intro l
  induction l with
  | nil => intro b hb; exact hb
  | cons x xs ih => intro b hb; exact ih (f b x) (hstep b x hb)

/-- After `reset_state` runs, the reset date records the current date. -/
theorem reset_state_records_date (d : TradeDate)
    (portfolio : List PortfolioEntry) (st : ExecState) :
    (reset_state d portfolio st).last_reset_date = some d := by
  unfold reset_state
  by_cases h : st.last_reset_date = some d
  · simp [h]
  · simp [h]

/-- When the reset already ran today, `reset_state` returns the state
untouched. -/
theorem reset_state_of_done {d : TradeDate} {st : ExecState}
    (portfolio : List PortfolioEntry) (h : st.last_reset_date = some d) :
    reset_state d portfolio st = st := by
  unfold reset_state
  simp [h]

end Lemmas

/-- C10: `reset_state` is idempotent within a trading day: after it has run
on a given date (recording `last_reset_date`), every subsequent call on that
same date (with any portfolio) returns immediately and leaves every field of
the executor state unchanged. -/
theorem c10_reset_state_idempotent (d : TradeDate)
    (p1 p2 : List PortfolioEntry) (st : ExecState) :
    reset_state d p2 (reset_state d p1 st) = reset_state d p1 st :=
  reset_state_of_done p2 (reset_state_records_date d p1 st)

/-- C7: when both legs of an opening spread are filled but the fill-order
records for either leg cannot be retrieved, `UpgradedYellowAlligator`
assumes the default initial credit of $0.20 and derives the stop-loss
target debit and the profit-target debit from that default value. -/
theorem c7_default_credit_fallback (sf lf : List FillOrder)
    (h : sf = [] ∨ lf = []) :
    UpgradedYellowAlligator.establish_credit_targets sf lf =
      (20 / 100, (20 / 100) * UpgradedYellowAlligator.stop_loss_multiplier,
       (20 / 100) * (1 - UpgradedYellowAlligator.profit_target_percentage)) := by
  rcases h with h | h <;> subst h <;>
    simp [UpgradedYellowAlligator.establish_credit_targets]

/-- Witness for C7 at the concrete input where neither leg has a retrievable
fill order. -/
theorem c7_witness :
    ((List.nil : List FillOrder) = [] ∨ (List.nil : List FillOrder) = []) ∧
    UpgradedYellowAlligator.establish_credit_targets [] [] =
      (20 / 100, (20 / 100) * UpgradedYellowAlligator.stop_loss_multiplier,
       (20 / 100) * (1 - UpgradedYellowAlligator.profit_target_percentage)) :=
  ⟨Or.inl rfl, c7_default_credit_fallback [] [] (Or.inl rfl)⟩

/-- C8 counterexample: an order event with status REJECTED falls through to
the unhandled-status branch of `on_order_event`, not to a status-specific
branch. -/
theorem c8_counterexample :
    on_order_event_dispatch OrderStatus.rejected =
      OrderEventBranch.unhandledLogged := rfl

/-- C8 (amended): `on_order_event` processes submitted, filled, partially
filled, canceled and invalid order events through status-specific branches
(fills via the fill handler, cancellations and invalid orders via the
flag-resetting handlers, submitted and partially-filled silently), while a
REJECTED status falls through to the unhandled-status branch. -/
theorem c8_dispatch_branches :
    on_order_event_dispatch OrderStatus.filled =
      OrderEventBranch.filledHandler ∧
    on_order_event_dispatch OrderStatus.canceled =
      OrderEventBranch.canceledHandler ∧
    on_order_event_dispatch OrderStatus.invalid =
      OrderEventBranch.invalidHandler ∧
    on_order_event_dispatch OrderStatus.submitted =
      OrderEventBranch.submittedSilent ∧
    on_order_event_dispatch OrderStatus.partiallyFilled =
      OrderEventBranch.partialFillSilent ∧
    on_order_event_dispatch OrderStatus.rejected =
      OrderEventBranch.unhandledLogged :=
  ⟨rfl, rfl, rfl, rfl, rfl, rfl⟩

section SelectorLemmas

theorem tryWidth_good (cfg : SelectorConfig)
    (put_contracts : List OptionContract) (short_put : OptionContract)
    (acc : List SpreadInfo × List SpreadInfo) (w : ℚ)
    (h : GoodLists cfg put_contracts short_put acc) :
    GoodLists cfg put_contracts short_put
      (tryWidth cfg put_contracts short_put acc w) := by
  unfold tryWidth
  split
  · exact h
  · split
    · exact h
    · split
      · exact h
      · dsimp only
        split
        · exact h
        · rename_i min_strike hmin hshort long_put hhead
          have hmem : long_put ∈ put_contracts.filter fun c =>
              decide (c.strike < short_put.strike) &&
                decide (short_put.strike - c.strike ≤ w) := by
            have := mem_of_head? hhead
            rwa [mem_pySort] at this
          rw [List.mem_filter] at hmem
          obtain ⟨hpc, hcond⟩ := hmem
          rw [Bool.and_eq_true, decide_eq_true_eq, decide_eq_true_eq] at hcond
          obtain ⟨hlt, hle⟩ := hcond
          split
          · exact h
          · split
            · exact h
            · rename_i hwidth hcredit
              push_neg at hwidth hcredit
              have hwmax : short_put.strike - long_put.strike ≤
                  cfg.max_spread_width := by
                have hW : ¬cfg.max_spread_width < w := by assumption
                push_neg at hW
                exact le_trans hle hW
              have hgood : GoodInfo cfg put_contracts short_put
                  { shortC := short_put, longC := long_put,
                    width := short_put.strike - long_put.strike,
                    credit := short_put.bidPrice - long_put.askPrice } :=
                ⟨rfl, hpc, hlt, rfl, hwidth, hwmax, rfl, hcredit⟩
              split
              · rename_i hpref
                refine ⟨?_, h.2⟩
                intro si hsi
                rcases List.mem_append.mp hsi with hold | hnew
                · exact h.1 si hold
                · rw [List.mem_singleton] at hnew
                  subst hnew
                  exact ⟨hgood, by assumption⟩
              · split
                · rename_i hfall
                  refine ⟨h.1, ?_⟩
                  intro si hsi
                  rcases List.mem_append.mp hsi with hold | hnew
                  · exact h.2 si hold
                  · rw [List.mem_singleton] at hnew
                    subst hnew
                    exact ⟨hgood, by assumption⟩
                · exact h

theorem tryShortPut_spec (cfg : SelectorConfig)
    (put_contracts : List OptionContract) (short_put : OptionContract)
    (r : SelectedSpread) (h : tryShortPut cfg put_contracts short_put = some r) :
    ∃ si, GoodInfo cfg put_contracts short_put si ∧
      (si.width * cfg.min_credit_pct ≤ si.credit ∨
        si.width * cfg.min_credit_fallback_pct ≤ si.credit) ∧
      r = buildSelected si := by
  unfold tryShortPut at h
  split at h
  · exact absurd h (by simp)
  · have hlists : GoodLists cfg put_contracts short_put
        (cfg.width_fallbacks.foldl
          (tryWidth cfg put_contracts short_put) ([], [])) := by
      refine foldlPreserve _ (GoodLists cfg put_contracts short_put)
        (fun b a hb => tryWidth_good cfg put_contracts short_put b a hb)
        cfg.width_fallbacks ([], []) ?_
      constructor <;> intro si hsi <;> simp at hsi
    dsimp only at h
    split at h
    · rw [Option.map_eq_some'] at h
      obtain ⟨si, hhead, hbuild⟩ := h
      have hmem : si ∈ (cfg.width_fallbacks.foldl
          (tryWidth cfg put_contracts short_put) ([], [])).1 := by
        have := mem_of_head? hhead
        rwa [mem_pySort] at this
      have hp := hlists.1 si hmem
      exact ⟨si, hp.1, Or.inl hp.2, hbuild.symm⟩
    · rw [Option.map_eq_some'] at h
      obtain ⟨si, hhead, hbuild⟩ := h
      have hmem : si ∈ (cfg.width_fallbacks.foldl
          (tryWidth cfg put_contracts short_put) ([], [])).2 := by
        have := mem_of_head? hhead
        rwa [mem_pySort] at this
      have hp := hlists.2 si hmem
      exact ⟨si, hp.1, Or.inr hp.2, hbuild.symm⟩

theorem tryShortCandidates_spec (cfg : SelectorConfig)
    (put_contracts : List OptionContract) :
    ∀ (cands : List OptionContract) (r : SelectedSpread),
      tryShortCandidates cfg put_contracts cands = some r →
      ∃ sp ∈ cands, tryShortPut cfg put_contracts sp = some r := by
  intro cands
  induction cands with
  | nil => intro r h; exact absurd h (by simp [tryShortCandidates])
  | cons x xs ih =>
    intro r h
    unfold tryShortCandidates at h
    split at h
    · rename_i heq
      cases h
      exact ⟨x, List.mem_cons_self _ _, heq⟩
    · obtain ⟨sp, hmem, hsp⟩ := ih r h
      exact ⟨sp, List.mem_cons_of_mem _ hmem, hsp⟩

theorem mem_startingCandidates (cfg : SelectorConfig)
    (chain : List OptionContract) (today : TradeDate)
    (sp : OptionContract)
    (h : sp ∈ startingCandidates cfg chain today) :
    sp ∈ validShortCandidates cfg chain today := by
  unfold startingCandidates at h
  dsimp only at h
  revert h
  split
  · intro h
    rwa [mem_pySort] at h
  · intro h
    rw [mem_pySort, List.mem_filter] at h
    have := h.1
    rwa [mem_pySort] at this

theorem select_spec (cfg : SelectorConfig) (chain : List OptionContract)
    (today : TradeDate) (r : SelectedSpread)
    (h : select_bull_put_spread cfg chain today = some r) :
    ∃ sp ∈ putContractsOf chain today,
      hasDelta sp = true ∧ absDelta sp ≤ cfg.max_delta ∧
      tryShortPut cfg (putContractsOf chain today) sp = some r := by
  unfold select_bull_put_spread at h
  split at h
  · exact absurd h (by simp)
  · split at h
    · exact absurd h (by simp)
    · split at h
      · exact absurd h (by simp)
      · obtain ⟨sp, hspmem, hsp⟩ :=
          tryShortCandidates_spec cfg (putContractsOf chain today) _ r h
        have hvalid := mem_startingCandidates cfg chain today sp hspmem
        unfold validShortCandidates at hvalid
        rw [List.mem_filter, Bool.and_eq_true, decide_eq_true_eq] at hvalid
        exact ⟨sp, hvalid.1, hvalid.2.1, hvalid.2.2, hsp⟩

end SelectorLemmas

/-- C4 (amended): `calculate_current_spread_value` returns the short put's
ask minus the long put's bid when both legs of the stored spread are found
among today's put contracts and an initial credit is recorded; it returns
`None` when the chain is empty, the stored strikes are unset, or either
leg's contract cannot be found. -/
theorem c4_spread_value_cases (chain : List OptionContract)
    (today : TradeDate) (st : ExecState) :
    (chain = [] → calculate_current_spread_value chain today st =
      Except.ok none) ∧
    (st.details.short_strike = none ∨ st.details.long_strike = none →
      calculate_current_spread_value chain today st = Except.ok none) ∧
    (∀ ss ls, st.details.short_strike = some ss →
      st.details.long_strike = some ls →
      (findLegContract chain today ss = none ∨
        findLegContract chain today ls = none) →
      calculate_current_spread_value chain today st = Except.ok none) ∧
    (∀ ss ls c sp lp, st.details.short_strike = some ss →
      st.details.long_strike = some ls →
      st.details.initial_credit = some c →
      findLegContract chain today ss = some sp →
      findLegContract chain today ls = some lp →
      calculate_current_spread_value chain today st =
        Except.ok (some (sp.askPrice - lp.bidPrice))) := by
  refine ⟨?_, ?_, ?_, ?_⟩
  · intro h
    subst h
    simp [calculate_current_spread_value]
  · intro h
    by_cases hc : chain.isEmpty
    · simp [calculate_current_spread_value, hc]
    · rcases hss : st.details.short_strike with _ | ss <;>
        rcases hls : st.details.long_strike with _ | ls <;>
        simp_all [calculate_current_spread_value]
  · intro ss ls hss hls hfind
    by_cases hc : chain.isEmpty
    · simp [calculate_current_spread_value, hc]
    · rcases hfind with h | h <;>
        simp [calculate_current_spread_value, hc, hss, hls, h]
  · intro ss ls c sp lp hss hls hcred hfs hfl
    have hsp_mem : sp ∈ putContractsOf chain today :=
      List.mem_of_find?_eq_some hfs
    have hpc : (putContractsOf chain today).isEmpty = false := by
      cases hpc : (putContractsOf chain today).isEmpty
      · rfl
      · rw [List.isEmpty_iff] at hpc
        simp [hpc] at hsp_mem
    have hchain : chain.isEmpty = false := by
      cases hch : chain.isEmpty
      · rfl
      · rw [List.isEmpty_iff] at hch
        subst hch
        simp [putContractsOf] at hsp_mem
    simp [calculate_current_spread_value, hchain, hss, hls, hpc, hfs, hfl,
      hcred]

/-- Shared characterisation of the stop-loss check: with a spread open, no
close pending, a recorded initial credit and a computable debit, the check
initiates a close exactly when the debit reaches `credit * slm`. -/
theorem risk_check_stop_loss_spec (slm : ℚ) (env : CloseEnv)
    (chain : List OptionContract) (portfolio : List PortfolioEntry)
    (today : TradeDate) (st : ExecState) (c d : ℚ)
    (h1 : st.spread_is_open = true) (h2 : st.pending_close = false)
    (h3 : st.details.initial_credit = some c)
    (h4 : calculate_current_spread_value chain today st =
      Except.ok (some d)) :
    ∃ r, risk_check_stop_loss slm env chain portfolio today st =
      Except.ok r ∧ (r.closeInitiated = true ↔ c * slm ≤ d) := by
  unfold risk_check_stop_loss
  rw [h3, h4]
  simp only [h1, h2]
  by_cases hcd : c * slm ≤ d
  · exact ⟨{ closeInitiated := true,
             returned := (close_spread_position env (some chain) portfolio st).1,
             state := (close_spread_position env (some chain) portfolio st).2.1,
             orders := (close_spread_position env (some chain) portfolio st).2.2 },
           by simp [hcd], by simpa using hcd⟩
  · exact ⟨RiskCheckResult.none_ st, by simp [hcd],
           by simp [RiskCheckResult.none_, hcd]⟩

/-- C1: on a monitoring call with a spread open (`spread_is_open`, no
pending close), a recorded initial credit and a computable debit-to-close,
`RiskManager._check_stop_loss` (stop-loss multiple 2) initiates a close of
the position if and only if the current debit-to-close is at least twice
the initial credit. -/
theorem c1_stop_loss_iff (env : CloseEnv) (chain : List OptionContract)
    (portfolio : List PortfolioEntry) (today : TradeDate) (st : ExecState)
    (c d : ℚ) (h1 : st.spread_is_open = true) (h2 : st.pending_close = false)
    (h3 : st.details.initial_credit = some c)
    (h4 : calculate_current_spread_value chain today st =
      Except.ok (some d)) :
    ∃ r, risk_check_stop_loss 2 env chain portfolio today st =
      Except.ok r ∧ (r.closeInitiated = true ↔ c * 2 ≤ d) :=
  risk_check_stop_loss_spec 2 env chain portfolio today st c d h1 h2 h3 h4

unseal Rat.mul Rat.add Rat.sub Rat.inv in
/-- Witness for C1: on the concrete open 100/95 spread with initial credit
0.50 and a chain pricing the debit to close at 1.10, the stop-loss threshold
`0.50 * 2 = 1.00` is breached and a close is initiated. -/
theorem c1_witness :
    exStateOpen.spread_is_open = true ∧
    exStateOpen.pending_close = false ∧
    exStateOpen.details.initial_credit = some (1 / 2) ∧
    calculate_current_spread_value exChain 0 exStateOpen =
      Except.ok (some (11 / 10)) ∧
    ∃ r, risk_check_stop_loss 2 exEnv exChain exPortfolio 0 exStateOpen =
      Except.ok r ∧ (r.closeInitiated = true ↔ (1 / 2 : ℚ) * 2 ≤ 11 / 10) :=
  ⟨rfl, rfl, rfl, by decide,
   c1_stop_loss_iff exEnv exChain exPortfolio 0 exStateOpen (1 / 2) (11 / 10)
     rfl rfl rfl (by decide)⟩

unseal Rat.mul Rat.add Rat.sub Rat.inv in
/-- C5 counterexample: a data tick on the open 100/95 spread (entered for a
credit of 1.00, maximum profit 100) where the debit to close is 0.25.  The
current profit of 75 reaches the 50%-of-max-profit take-profit threshold,
and `check_take_profit` would initiate a close, yet the tick's risk check
initiates no close: `on_data` only runs the stop-loss check, and the debit
0.25 is below `1.00 * 2`. -/
theorem c5_counterexample :
    on_data_risk_check 2 exEnv (some exChainTP) exPortfolio 0 exStateTP =
      Except.ok (RiskCheckResult.none_ exStateTP) ∧
    check_take_profit exEnv exChainTP exPortfolio 0 exStateTP =
      Except.ok { closeInitiated := true, returned := true,
                  state :=
                    { spread_is_open := true, pending_open := false,
                      pending_close := true, last_reset_date := some 0,
                      order_tickets := [11, 12], details := exDetailsTP },
                  orders := [PlacedOrder.spreadClose 100 95 0] } := by
  constructor
  · decide
  · decide

/-- C5 (amended): on every data tick processed while a spread is open (reset
already performed today, no close pending, initial credit recorded, debit
computable), the position is managed against the stop-loss only: the
recomputed debit-to-close initiates a close if and only if it is at least
twice the initial credit; the take-profit check is never invoked from
`on_data` (disabled there). -/
theorem c5_tick_stop_loss_only (env : CloseEnv)
    (chain : List OptionContract) (portfolio : List PortfolioEntry)
    (today : TradeDate) (st : ExecState) (c d : ℚ)
    (h0 : st.last_reset_date = some today)
    (h1 : st.spread_is_open = true) (h2 : st.pending_close = false)
    (h3 : st.details.initial_credit = some c)
    (h4 : calculate_current_spread_value chain today st =
      Except.ok (some d)) :
    ∃ r, on_data_risk_check 2 env (some chain) portfolio today st =
      Except.ok r ∧ (r.closeInitiated = true ↔ c * 2 ≤ d) := by
  unfold on_data_risk_check
  rw [reset_state_of_done portfolio h0]
  simp only [monitor_positions, h1, Bool.not_true, if_neg, if_pos]
  simp only [false_or, Bool.false_eq_true, not_false_eq_true, ite_false,
    ite_true, not_true_eq_false]
  exact risk_check_stop_loss_spec 2 env chain portfolio today st c d
    h1 h2 h3 h4

unseal Rat.mul Rat.add Rat.sub Rat.inv in
/-- Witness for C5 (amended) at the concrete stop-loss scenario: debit 1.10,
credit 0.50, so the close is initiated on the tick. -/
theorem c5_witness :
    exStateOpen.last_reset_date = some 0 ∧
    exStateOpen.spread_is_open = true ∧
    exStateOpen.pending_close = false ∧
    exStateOpen.details.initial_credit = some (1 / 2) ∧
    calculate_current_spread_value exChain 0 exStateOpen =
      Except.ok (some (11 / 10)) ∧
    ∃ r, on_data_risk_check 2 exEnv (some exChain) exPortfolio 0 exStateOpen =
      Except.ok r ∧ (r.closeInitiated = true ↔ (1 / 2 : ℚ) * 2 ≤ 11 / 10) :=
  ⟨rfl, rfl, rfl, rfl, by decide,
   c5_tick_stop_loss_only exEnv exChain exPortfolio 0 exStateOpen
     (1 / 2) (11 / 10) rfl rfl rfl rfl (by decide)⟩

/-- When any option position has nonzero quantity, the option-position list
is nonempty. -/
theorem optionPositions_ne_nil {portfolio : List PortfolioEntry}
    (h : hasOptionPositions portfolio = true) :
    optionPositionsOf portfolio ≠ [] := by
  unfold hasOptionPositions at h
  rw [List.any_eq_true] at h
  obtain ⟨e, hmem, hp⟩ := h
  have : e ∈ optionPositionsOf portfolio :=
    List.mem_filter.mpr ⟨hmem, hp⟩
  exact List.ne_nil_of_mem this

/-- With option positions present, `force_close_positions` places at least
one liquidation order. -/
theorem force_close_orders_ne_nil (portfolio : List PortfolioEntry)
    (st : ExecState) (h : optionPositionsOf portfolio ≠ []) :
    (force_close_positions portfolio st).2.2 ≠ [] := by
  unfold force_close_positions
  have hne : (optionPositionsOf portfolio).isEmpty = false := by
    cases hi : (optionPositionsOf portfolio).isEmpty
    · rfl
    · exact absurd (List.isEmpty_iff.mp hi) h
  simp only [hne, Bool.false_eq_true, if_false, ite_false]
  simp only [ne_eq, List.map_eq_nil_iff]
  exact h

/-- C2: whenever the scheduled 15:30 `close_positions` callback runs with at
least one option position of nonzero quantity in the portfolio, a closing
order is placed before the callback returns (a combo spread close order or
per-leg liquidation orders). -/
theorem c2_eod_close_places_order (env : CloseEnv)
    (chain : Option (List OptionContract)) (today : TradeDate)
    (portfolio : List PortfolioEntry) (st : ExecState)
    (h : hasOptionPositions portfolio = true) :
    (close_positions env chain today portfolio st).2 ≠ [] := by
  unfold close_positions
  simp only [h, ite_true, if_true]
  intro heq
  rcases List.append_eq_nil.mp heq with ⟨_, hforce⟩
  exact force_close_orders_ne_nil portfolio _ (optionPositions_ne_nil h)
    hforce

/-- Witness for C2 at the concrete two-leg portfolio. -/
theorem c2_witness :
    hasOptionPositions exPortfolio = true ∧
    (close_positions exEnv (some exChain) 0 exPortfolio exStateOpen).2 ≠ [] :=
  ⟨rfl, c2_eod_close_places_order exEnv (some exChain) 0 exPortfolio
    exStateOpen rfl⟩

/-- C6: when `close_spread_position` runs on an open spread (no close
pending) and both combo-closure strategies fail or raise, the executor
falls back to `force_close_positions`, which places an individual buy order
for each short option leg and an individual sell order for each long option
leg. -/
theorem c6_combo_failure_forces_legs (env : CloseEnv)
    (chain : Option (List OptionContract)) (portfolio : List PortfolioEntry)
    (st : ExecState)
    (h1 : st.spread_is_open = true) (h2 : st.pending_close = false)
    (h3 : try_close_with_current_details env chain st = none)
    (h4 : try_close_with_holdings env portfolio st = none) :
    close_spread_position env chain portfolio st =
      force_close_positions portfolio st ∧
    (close_spread_position env chain portfolio st).2.2 =
      (optionPositionsOf portfolio).map (fun e =>
        if 0 < e.quantity then
          PlacedOrder.legSell e.symbolId e.quantity.natAbs
        else PlacedOrder.legBuy e.symbolId e.quantity.natAbs) := by
  have hc : close_spread_position env chain portfolio st =
      force_close_positions portfolio st := by
    unfold close_spread_position
    simp [h1, h2, h3, h4]
  refine ⟨hc, ?_⟩
  rw [hc]
  unfold force_close_positions
  cases hops : (optionPositionsOf portfolio).isEmpty
  · simp only [hops, Bool.false_eq_true, if_false, ite_false]
  · rw [List.isEmpty_iff] at hops
    simp [hops]

unseal Rat.mul Rat.add Rat.sub Rat.inv in
/-- Witness for C6: with both combo-close attempts raising an exception on
the open 100/95 spread, the per-leg fallback buys back the short leg and
sells the long leg. -/
theorem c6_witness :
    exStateOpen.spread_is_open = true ∧
    exStateOpen.pending_close = false ∧
    try_close_with_current_details exEnvFail (some exChain) exStateOpen =
      none ∧
    try_close_with_holdings exEnvFail exPortfolio exStateOpen = none ∧
    (close_spread_position exEnvFail (some exChain) exPortfolio exStateOpen =
       force_close_positions exPortfolio exStateOpen ∧
     (close_spread_position exEnvFail (some exChain) exPortfolio
         exStateOpen).2.2 =
       (optionPositionsOf exPortfolio).map (fun e =>
         if 0 < e.quantity then
           PlacedOrder.legSell e.symbolId e.quantity.natAbs
         else PlacedOrder.legBuy e.symbolId e.quantity.natAbs)) :=
  ⟨rfl, rfl, by decide, by decide,
   c6_combo_failure_forces_legs exEnvFail (some exChain) exPortfolio
     exStateOpen rfl rfl (by decide) (by decide)⟩

/-- Membership in today's put contracts gives the right and the expiry. -/
theorem mem_putContracts {chain : List OptionContract} {today : TradeDate}
    {c : OptionContract} (h : c ∈ putContractsOf chain today) :
    c.right = OptionRight.put ∧ c.expiryDate = today := by
  unfold putContractsOf at h
  rw [List.mem_filter, Bool.and_eq_true, decide_eq_true_eq,
    decide_eq_true_eq] at h
  exact h.2

/-- C3: every spread returned by `select_bull_put_spread` is a same-day
bull put spread: both legs are puts expiring on the current algorithm date,
the short leg carries a delta with absolute value at most `max_delta`, and
the short strike is strictly greater than the long strike. -/
theorem c3_same_day_bull_put (cfg : SelectorConfig)
    (chain : List OptionContract) (today : TradeDate) (r : SelectedSpread)
    (h : select_bull_put_spread cfg chain today = some r) :
    r.shortC.right = OptionRight.put ∧ r.shortC.expiryDate = today ∧
    r.longC.right = OptionRight.put ∧ r.longC.expiryDate = today ∧
    hasDelta r.shortC = true ∧ absDelta r.shortC ≤ cfg.max_delta ∧
    r.longC.strike < r.shortC.strike := by
  obtain ⟨sp, hspmem, hdelta, hmaxd, htry⟩ := select_spec cfg chain today r h
  obtain ⟨si, hgood, hthr, hbuild⟩ :=
    tryShortPut_spec cfg (putContractsOf chain today) sp r htry
  obtain ⟨hsc, hlmem, hlt, hw, hwmin, hwmax, hcr, hcpos⟩ := hgood
  have hsp := mem_putContracts hspmem
  have hlp := mem_putContracts hlmem
  subst hbuild
  simp only [buildSelected]
  rw [hsc]
  exact ⟨hsp.1, hsp.2, hlp.1, hlp.2, hdelta, hmaxd, hlt⟩

unseal Rat.mul Rat.add Rat.sub Rat.inv in
/-- Witness for C3: on the concrete two-put chain, the selector returns the
100/95 bull put expiring today. -/
theorem c3_witness :
    select_bull_put_spread SelectorConfig.default exChain 0 =
      some exSelected ∧
    (exSelected.shortC.right = OptionRight.put ∧
     exSelected.shortC.expiryDate = 0 ∧
     exSelected.longC.right = OptionRight.put ∧
     exSelected.longC.expiryDate = 0 ∧
     hasDelta exSelected.shortC = true ∧
     absDelta exSelected.shortC ≤ SelectorConfig.default.max_delta ∧
     exSelected.longC.strike < exSelected.shortC.strike) :=
  ⟨by decide,
   c3_same_day_bull_put SelectorConfig.default exChain 0 exSelected
     (by decide)⟩

/-- C9: every spread returned by `select_bull_put_spread` (with the fallback
credit threshold at most the preferred one, as in the defaults 15% and 20%)
satisfies the credit and width arithmetic: the net credit is the short bid
minus the long ask and is strictly positive, the credit is at least
`min_credit_fallback_pct` of the width, the width is the strike difference
and lies between `min_spread_width` and `max_spread_width` inclusive,
`max_profit = 100 * credit`, `max_loss = 100 * (width - credit)` (so their
sum is `100 * width`), and `breakeven = short strike - credit`. -/
theorem c9_spread_arithmetic (cfg : SelectorConfig)
    (chain : List OptionContract) (today : TradeDate) (r : SelectedSpread)
    (hpct : cfg.min_credit_fallback_pct ≤ cfg.min_credit_pct)
    (h : select_bull_put_spread cfg chain today = some r) :
    r.credit = r.shortC.bidPrice - r.longC.askPrice ∧ 0 < r.credit ∧
    r.width * cfg.min_credit_fallback_pct ≤ r.credit ∧
    r.width = r.shortC.strike - r.longC.strike ∧
    cfg.min_spread_width ≤ r.width ∧ r.width ≤ cfg.max_spread_width ∧
    r.max_profit = r.credit * 100 ∧
    r.max_loss = (r.width - r.credit) * 100 ∧
    r.max_profit + r.max_loss = r.width * 100 ∧
    r.breakeven = r.shortC.strike - r.credit := by
  obtain ⟨sp, hspmem, hdelta, hmaxd, htry⟩ := select_spec cfg chain today r h
  obtain ⟨si, hgood, hthr, hbuild⟩ :=
    tryShortPut_spec cfg (putContractsOf chain today) sp r htry
  obtain ⟨hsc, hlmem, hlt, hw, hwmin, hwmax, hcr, hcpos⟩ := hgood
  have hw0 : 0 < si.width := by
    rw [hw]
    exact sub_pos.mpr hlt
  have hfall : si.width * cfg.min_credit_fallback_pct ≤ si.credit := by
    rcases hthr with hpref | hfb
    · exact le_trans (mul_le_mul_of_nonneg_left hpct hw0.le) hpref
    · exact hfb
  subst hbuild
  simp only [buildSelected]
  rw [hsc]
  refine ⟨hcr, hcpos, hfall, hw, hwmin, hwmax, trivial, trivial, by ring,
    trivial⟩

unseal Rat.mul Rat.add Rat.sub Rat.inv in
/-- Witness for C9 at the concrete chain: the selected 100/95 spread has
credit `0.75 = 1.00 - 0.25`, width 5, `max_profit 75`, `max_loss 425` and
breakeven `99.25`. -/
theorem c9_witness :
    SelectorConfig.default.min_credit_fallback_pct ≤
      SelectorConfig.default.min_credit_pct ∧
    (exSelected.credit =
       exSelected.shortC.bidPrice - exSelected.longC.askPrice ∧
     0 < exSelected.credit ∧
     exSelected.width * SelectorConfig.default.min_credit_fallback_pct ≤
       exSelected.credit ∧
     exSelected.width = exSelected.shortC.strike -
       exSelected.longC.strike ∧
     SelectorConfig.default.min_spread_width ≤ exSelected.width ∧
     exSelected.width ≤ SelectorConfig.default.max_spread_width ∧
     exSelected.max_profit = exSelected.credit * 100 ∧
     exSelected.max_loss = (exSelected.width - exSelected.credit) * 100 ∧
     exSelected.max_profit + exSelected.max_loss =
       exSelected.width * 100 ∧
     exSelected.breakeven = exSelected.shortC.strike -
       exSelected.credit) :=
  ⟨by decide,
   c9_spread_arithmetic SelectorConfig.default exChain 0 exSelected
     (by decide) (by decide)⟩

unseal Rat.mul Rat.add Rat.sub Rat.inv in
/-- C4 counterexample: with both strikes stored, both leg contracts present
in today's chain, but no initial credit recorded, the claim requires the
short ask minus the long bid, yet `calculate_current_spread_value` raises a
`TypeError` (from evaluating `initial_credit > 0` on `None`) instead of
returning the debit. -/
theorem c4_counterexample :
    exStateNoCredit.details.short_strike = some 100 ∧
    exStateNoCredit.details.long_strike = some 95 ∧
    exStateNoCredit.details.initial_credit = none ∧
    findLegContract exChain 0 100 = some exShortPut ∧
    findLegContract exChain 0 95 = some exLongPut ∧
    calculate_current_spread_value exChain 0 exStateNoCredit =
      Except.error () :=
  ⟨rfl, rfl, rfl, by decide, by decide, by decide⟩

unseal Rat.mul Rat.add Rat.sub Rat.inv in
/-- Witness for C4 (amended): with the initial credit recorded, the debit is
the short ask minus the long bid, `1.20 - 0.10 = 1.10`. -/
theorem c4_witness :
    calculate_current_spread_value exChain 0 exStateOpen =
      Except.ok (some (exShortPut.askPrice - exLongPut.bidPrice)) :=
  (c4_spread_value_cases exChain 0 exStateOpen).2.2.2 100 95 (1 / 2)
    exShortPut exLongPut rfl rfl rfl (by decide) (by decide)
